import Mathlib

/-
Shallow embedding of the Study Progression & Decision-Gating Engine of
biz-agent-api (src/app/rag/study.py, src/app/rag/chat.py,
src/app/rag/decisions.py).

The per-learner database row `user_progress` is modelled as an explicit
`ProgressRow`; the `company_memory` table as a list of `MemoryRecord`.
Collaborator outputs (language-model completions, embedding vectors,
similarity-search rows) enter the model as function parameters: the engine
code under verification only ever consumes their parsed results.
Question status is kept as the literal strings "open" / "answered" /
"skipped" used by the Python code.
-/

set_option maxRecDepth 2000

namespace BizAgent

/-- PendingQuestion: the dicts stored in user_progress.pending_questions,
shaped by parse_pending_questions / generate_fallback_questions. -/
structure Question where
  id : String
  text : String
  status : String
  user_answer : Option String
deriving DecidableEq

/-- One entry of draft_decision["answers"]. -/
structure DraftAnswer where
  question_id : String
  answer : String
deriving DecidableEq

/-- draft_decision as built by save_draft_answer. -/
structure Draft where
  topic : String
  answers : List DraftAnswer
  started_at : String
deriving DecidableEq

/-- A row inserted into company_memory by save_memory (the embedding vector,
a collaborator product, is not tracked). -/
structure MemoryRecord where
  memory_type : String
  status : String
  related_module : Nat
  related_day : Nat
  related_lecture_id : Option String
  related_topic : String
  question_asked : String
  user_decision_raw : String
  user_decision_normalized : String
deriving DecidableEq

/-- The user_progress row for the single learner. -/
structure ProgressRow where
  mode : String
  current_module : Nat
  current_day : Nat
  current_lecture_id : Option String
  current_sequence_order : Nat
  pending_questions : List Question
  pending_block_id : Option String
  draft_decision : Option Draft
deriving DecidableEq

/-- Database state visible to the engine: the learner's progress row (absent
until created) and the company_memory table. -/
structure UserState where
  progress : Option ProgressRow
  memory : List MemoryRecord
deriving DecidableEq

/-- Row of course_lectures. -/
structure Lecture where
  lecture_id : String
  module : Nat
  day : Nat
  lecture_order : Nat
  speaker_type : String
deriving DecidableEq

/-- Row of course_chunks (CurriculumUnit). -/
structure Chunk where
  chunk_id : String
  lecture_id : String
  sequence_order : Nat
  speaker_type : String
  content : String
  content_type : String
deriving DecidableEq

/-- The course tables. -/
structure Course where
  lectures : List Lecture
  chunks : List Chunk
deriving DecidableEq

/-- An {id, text} pair extracted from the model's pending_questions payload. -/
structure QuestionSpec where
  id : String
  text : String
deriving DecidableEq

/-- Parsed questions_analysis payload (the keys process_user_answer reads). -/
structure Analysis where
  answered : List String
  skipped : List String
  still_open : List String
deriving DecidableEq

/-- Value returned by commit_decision on success. -/
structure CommitResult where
  memory_id : Nat
  topic : String
  summary : String
deriving DecidableEq

/-- Counts returned by get_questions_stats. -/
structure QuestionsStats where
  total : Nat
  answered : Nat
  skipped : Nat
  open_ : Nat
deriving DecidableEq

-- ===========================================================================
-- String helpers mirroring the Python primitives used by study.py
-- ===========================================================================

/-- str.lower for the alphabets the engine's patterns use: ASCII A-Z and
Cyrillic А-Я, Ё. -/
def pyLowerChar (c : Char) : Char :=
  if 0x410 ≤ c.toNat ∧ c.toNat ≤ 0x42F then Char.ofNat (c.toNat + 0x20)
  else if c = 'Ё' then 'ё'
  else c.toLower

def pyLower (s : String) : String :=
  String.mk (s.data.map pyLowerChar)

/-- Python `needle in hay` substring test, on char lists. -/
def containsSubAux (needle : List Char) : List Char → Bool
  | [] => needle.isEmpty
  | c :: t => needle.isPrefixOf (c :: t) || containsSubAux needle t

/-- Python `needle in hay` substring test. -/
def containsSub (needle hay : String) : Bool :=
  containsSubAux needle.data hay.data

/-- Python slicing s[:n], by code points. -/
def pyTake (s : String) (n : Nat) : String :=
  String.mk (s.data.take n)

/-- Python str.strip(): drop leading and trailing whitespace. -/
def pyStrip (s : String) : String :=
  let l := s.data.dropWhile (fun c => c.isWhitespace)
  String.mk ((l.reverse.dropWhile (fun c => c.isWhitespace)).reverse)

-- ===========================================================================
-- analyze_roi_answer (study.py lines 309-323)
-- Each regex of roi_signals is compiled by hand to a matcher over the
-- lowercased reply; re.IGNORECASE is realised by lowercasing the input,
-- the pattern literals being lowercase already.
-- ===========================================================================

/-- Python regex \s whitespace class (the characters the engine can meet). -/
def pyIsSpace (c : Char) : Bool :=
  c = ' ' || c = '\t' || c = '\n' || c = '\r' || c.toNat = 11 || c.toNat = 12

/-- Python regex \w word class over ASCII and Cyrillic. -/
def isWordChar (c : Char) : Bool :=
  c.isAlphanum || c = '_' ||
    (0x410 ≤ c.toNat && c.toNat ≤ 0x44F) || c = 'ё' || c = 'Ё'

/-- Consume `\d+` (one or more ASCII digits), greedily. -/
def dropDigits1 (l : List Char) : Option (List Char) :=
  match l with
  | [] => none
  | c :: _ => if c.isDigit then some (l.dropWhile (fun d => d.isDigit)) else none

/-- Consume `\s*`, greedily. -/
def dropSpaces (l : List Char) : List Char :=
  l.dropWhile pyIsSpace

/-- Does the literal start the list? -/
def isLitPrefix (lit : String) (l : List Char) : Bool :=
  lit.data.isPrefixOf l

/-- Consume an exact literal. -/
def afterLit (lit : String) (l : List Char) : Option (List Char) :=
  if lit.data.isPrefixOf l then some (l.drop lit.data.length) else none

/-- Regex `\b` right after a word character: next char is not a word char. -/
def wordBoundary (l : List Char) : Bool :=
  match l with
  | [] => true
  | c :: _ => !(isWordChar c)

/-- Match a single-char literal followed by `\b`. -/
def litThenBoundary (lit : String) (l : List Char) : Bool :=
  match afterLit lit l with
  | some t => wordBoundary t
  | none => false

/-- Signal `\d+\s*(₽|руб|рублей|р\.|р\b)` at this position. -/
def roiSig1 (l : List Char) : Bool :=
  match dropDigits1 l with
  | none => false
  | some r0 =>
    let r := dropSpaces r0
    isLitPrefix "₽" r || isLitPrefix "руб" r || isLitPrefix "рублей" r ||
      isLitPrefix "р." r || litThenBoundary "р" r

/-- Signal `\d+\s*(час|ч\.|ч\b|часов|минут|мин)` at this position. -/
def roiSig2 (l : List Char) : Bool :=
  match dropDigits1 l with
  | none => false
  | some r0 =>
    let r := dropSpaces r0
    isLitPrefix "час" r || isLitPrefix "ч." r || litThenBoundary "ч" r ||
      isLitPrefix "часов" r || isLitPrefix "минут" r || isLitPrefix "мин" r

/-- Signal `\d+\s*(%|процент)` at this position. -/
def roiSig3 (l : List Char) : Bool :=
  match dropDigits1 l with
  | none => false
  | some r0 =>
    let r := dropSpaces r0
    isLitPrefix "%" r || isLitPrefix "процент" r

/-- Signal `\d+\s*(день|дн|дней|недел|месяц|мес|год|лет)` at this position. -/
def roiSig4 (l : List Char) : Bool :=
  match dropDigits1 l with
  | none => false
  | some r0 =>
    let r := dropSpaces r0
    isLitPrefix "день" r || isLitPrefix "дн" r || isLitPrefix "дней" r ||
      isLitPrefix "недел" r || isLitPrefix "месяц" r || isLitPrefix "мес" r ||
      isLitPrefix "год" r || isLitPrefix "лет" r

/-- Signal `ROI\s*[=:]` (IGNORECASE) at this position. -/
def roiSig5 (l : List Char) : Bool :=
  match afterLit "roi" l with
  | none => false
  | some r0 =>
    match dropSpaces r0 with
    | '=' :: _ => true
    | ':' :: _ => true
    | _ => false

/-- Signal `экономи[яю]|сэконом` at this position. -/
def roiSig6 (l : List Char) : Bool :=
  (match afterLit "экономи" l with
   | some (c :: _) => c = 'я' || c = 'ю'
   | _ => false) ||
  isLitPrefix "сэконом" l

/-- Signal `выгод[аы]` at this position. -/
def roiSig7 (l : List Char) : Bool :=
  match afterLit "выгод" l with
  | some (c :: _) => c = 'а' || c = 'ы'
  | _ => false

/-- Signal `окупа` at this position. -/
def roiSig8 (l : List Char) : Bool :=
  isLitPrefix "окупа" l

/-- Signal `\d+[.,]\d+` at this position. -/
def roiSig9 (l : List Char) : Bool :=
  match dropDigits1 l with
  | none => false
  | some r0 =>
    match r0 with
    | c :: rest =>
      (c = '.' || c = ',') &&
        (match rest with
         | d :: _ => d.isDigit
         | [] => false)
    | [] => false

/-- Signal `\d+\s*[*×x]\s*\d+` (IGNORECASE) at this position. -/
def roiSig10 (l : List Char) : Bool :=
  match dropDigits1 l with
  | none => false
  | some r0 =>
    match dropSpaces r0 with
    | c :: rest =>
      (c = '*' || c = '×' || c = 'x') &&
        (match dropSpaces rest with
         | d :: _ => d.isDigit
         | [] => false)
    | [] => false

/-- re.search: try a position matcher at every suffix. -/
def anyTail (p : List Char → Bool) : List Char → Bool
  | [] => p []
  | c :: t => p (c :: t) || anyTail p t

/-- analyze_roi_answer: check if the reply contains ROI/metric calculation
signals (numbers, formulas). -/
def analyze_roi_answer (user_answer : String) : Bool :=
  let l := (pyLower user_answer).data
  anyTail roiSig1 l || anyTail roiSig2 l || anyTail roiSig3 l ||
    anyTail roiSig4 l || anyTail roiSig5 l || anyTail roiSig6 l ||
    anyTail roiSig7 l || anyTail roiSig8 l || anyTail roiSig9 l ||
    anyTail roiSig10 l

-- ===========================================================================
-- Pending-question management (study.py lines 154-302)
-- ===========================================================================

/-- get_pending_questions: [] when the row is absent or the column empty. -/
def get_pending_questions (s : UserState) : List Question :=
  match s.progress with
  | some p => p.pending_questions
  | none => []

/-- save_pending_questions: UPDATE on the learner's row (no-op without a row). -/
def save_pending_questions (s : UserState) (qs : List Question) : UserState :=
  match s.progress with
  | some p => { s with progress := some { p with pending_questions := qs } }
  | none => s

/-- Python truthiness of the optional user_answer argument. -/
def truthyOptStr (o : Option String) : Bool :=
  match o with
  | some t => t ≠ ""
  | none => false

/-- Per-question body of the mark_questions_answered loop: a listed id gets
status "answered" and, when the user_answer argument is truthy, the recorded
answer overwritten — regardless of the question's current status. -/
def answeredUpdate (answered_ids : List String) (user_answer : Option String)
    (q : Question) : Question :=
  if answered_ids.contains q.id then
    { q with
      status := "answered"
      user_answer := if truthyOptStr user_answer then user_answer else q.user_answer }
  else q

/-- Per-question body of the skipped-marking loops (skip_question and
process_user_answer): a listed id gets status "skipped", regardless of the
question's current status. -/
def skippedUpdate (skipped_ids : List String) (q : Question) : Question :=
  if skipped_ids.contains q.id then { q with status := "skipped" } else q

/-- mark_questions_answered: every question whose id is listed gets status
"answered"; a truthy user_answer overwrites the recorded answer. Returns the
remaining open questions together with the new state. -/
def mark_questions_answered (s : UserState) (answered_ids : List String)
    (user_answer : Option String) : List Question × UserState :=
  let questions := (get_pending_questions s).map (answeredUpdate answered_ids user_answer)
  let s1 := save_pending_questions s questions
  (questions.filter (fun q => q.status == "open"), s1)

/-- clear_pending_questions: empties the question set and the block id. -/
def clear_pending_questions (s : UserState) : UserState :=
  match s.progress with
  | some p =>
    { s with progress := some { p with pending_questions := [], pending_block_id := none } }
  | none => s

/-- FALLBACK_QUESTIONS constant. -/
def FALLBACK_QUESTIONS : List QuestionSpec :=
  [ ⟨"roi", "Как будешь измерять ROI/эффект этого внедрения?"⟩,
    ⟨"data", "Какие данные/ресурсы нужны для реализации?"⟩,
    ⟨"owner", "Кто будет владельцем процесса/ответственным?"⟩,
    ⟨"next_step", "Какой первый конкретный шаг на ближайшие 48 часов?"⟩ ]

/-- generate_fallback_questions: the deterministic list, every entry open. -/
def generate_fallback_questions : List Question :=
  FALLBACK_QUESTIONS.map (fun q => ⟨q.id, q.text, "open", none⟩)

/-- get_pending_block_id, with the Python truthiness filter ("" reads as
absent). -/
def get_pending_block_id (s : UserState) : Option String :=
  match s.progress with
  | some p =>
    match p.pending_block_id with
    | some b => if b = "" then none else some b
    | none => none
  | none => none

/-- save_pending_questions_with_block. -/
def save_pending_questions_with_block (s : UserState) (qs : List Question)
    (block_id : String) : UserState :=
  match s.progress with
  | some p =>
    { s with progress := some { p with pending_questions := qs, pending_block_id := some block_id } }
  | none => s

/-- compute_block_id: lecture of the first chunk plus the sequence range. -/
def compute_block_id (chunks : List Chunk) : String :=
  match chunks with
  | [] => "unknown"
  | first :: _ =>
    let last := chunks.getLast?.getD first
    first.lecture_id ++ ":" ++ toString first.sequence_order ++ "-" ++
      toString last.sequence_order

/-- Does an open question match the skip query (id equality or substring of
the text, both case-insensitive)? -/
def skipMatches (query_lower : String) (q : Question) : Bool :=
  q.status == "open" &&
    (pyLower q.id == query_lower || containsSub query_lower (pyLower q.text))

/-- skip_question: collect ids and texts of matching open questions, then set
every question carrying a collected id to "skipped"; no match leaves the
state untouched. Returns ((remaining open, skipped texts), state). -/
def skip_question (s : UserState) (query : String) :
    (List Question × List String) × UserState :=
  let questions := get_pending_questions s
  let query_lower := pyStrip (pyLower query)
  let matched := questions.filter (skipMatches query_lower)
  let skipped_ids := matched.map (fun q => q.id)
  let skipped_texts := matched.map (fun q => q.text)
  if skipped_ids.isEmpty then
    ((questions.filter (fun q => q.status == "open"), skipped_texts), s)
  else
    let questions1 := questions.map (skippedUpdate skipped_ids)
    ((questions1.filter (fun q => q.status == "open"), skipped_texts),
      save_pending_questions s questions1)

/-- The skipped_ids local of skip_question: ids of the open questions
matching the query. -/
def skip_matched_ids (s : UserState) (query : String) : List String :=
  ((get_pending_questions s).filter (skipMatches (pyStrip (pyLower query)))).map
    (fun q => q.id)

/-- get_open_questions. -/
def get_open_questions (s : UserState) : List Question :=
  (get_pending_questions s).filter (fun q => q.status == "open")

/-- get_current_question: first open question. -/
def get_current_question (s : UserState) : Option Question :=
  (get_open_questions s).head?

/-- all_questions_closed: empty set counts as closed. -/
def all_questions_closed (s : UserState) : Bool :=
  (get_pending_questions s).all (fun q =>
    q.status == "answered" || q.status == "skipped")

/-- get_questions_stats. -/
def get_questions_stats (s : UserState) : QuestionsStats :=
  let questions := get_pending_questions s
  { total := questions.length
    answered := (questions.filter (fun q => q.status == "answered")).length
    skipped := (questions.filter (fun q => q.status == "skipped")).length
    open_ := (questions.filter (fun q => q.status == "open")).length }

-- ===========================================================================
-- Draft accumulator and decision committer (study.py lines 330-403, 716-740)
-- ===========================================================================

/-- get_draft_decision. -/
def get_draft_decision (s : UserState) : Option Draft :=
  match s.progress with
  | some p => p.draft_decision
  | none => none

/-- Update the first answer bearing the id, else append a new entry. -/
def updateAnswers (question_id answer_text : String) :
    List DraftAnswer → List DraftAnswer
  | [] => [⟨question_id, answer_text⟩]
  | a :: rest =>
    if a.question_id == question_id then { a with answer := answer_text } :: rest
    else a :: updateAnswers question_id answer_text rest

/-- Write the draft back to the row. -/
def save_draft (s : UserState) (d : Option Draft) : UserState :=
  match s.progress with
  | some p => { s with progress := some { p with draft_decision := d } }
  | none => s

/-- save_draft_answer: lazily create the draft (an empty topic falls back to
"Study decision"), then last-write-wins per question id. -/
def save_draft_answer (s : UserState) (question_id answer_text topic : String) :
    UserState :=
  let draft := match get_draft_decision s with
    | some d => d
    | none =>
      { topic := if topic = "" then "Study decision" else topic
        answers := []
        started_at := "" }
  let draft1 := { draft with answers := updateAnswers question_id answer_text draft.answers }
  save_draft s (some draft1)

/-- commit_decision: no draft or an answerless draft is a no-op returning
none; otherwise build the memory record from the draft and the cursor,
insert it (its id is its index in the table) and null the draft. -/
def commit_decision (s : UserState) : Option CommitResult × UserState :=
  match get_draft_decision s with
  | none => (none, s)
  | some draft =>
    if draft.answers = [] then (none, s)
    else
      let lecture_id : Option String :=
        match s.progress with
        | some p => p.current_lecture_id
        | none => some ""
      let module := match s.progress with
        | some p => p.current_module
        | none => 1
      let day := match s.progress with
        | some p => p.current_day
        | none => 1
      let answers_text := String.intercalate "\n"
        (draft.answers.map (fun a => "- " ++ a.question_id ++ ": " ++ a.answer))
      let normalized := "[" ++ draft.topic ++ "] " ++
        String.intercalate "; " ((draft.answers.take 3).map (fun a => pyTake a.answer 100))
      let record : MemoryRecord :=
        { memory_type := "decision"
          status := "active"
          related_module := module
          related_day := day
          related_lecture_id := lecture_id
          related_topic := draft.topic
          question_asked := "Study block questions"
          user_decision_raw := answers_text
          user_decision_normalized := pyTake normalized 500 }
      let memory_id := s.memory.length
      let s1 := save_draft { s with memory := s.memory ++ [record] } none
      (some { memory_id := memory_id, topic := draft.topic,
              summary := pyTake normalized 100 }, s1)

-- ===========================================================================
-- Curriculum cursor and block loader (study.py lines 406-515, 548-565)
-- ===========================================================================

/-- Lexicographic order on (module, day, lecture_order): strictly earlier. -/
def lectureBefore (a b : Lecture) : Bool :=
  a.module < b.module ||
    (a.module = b.module && (a.day < b.day ||
      (a.day = b.day && a.lecture_order < b.lecture_order)))

/-- Earliest lecture of a list in (module, day, lecture_order) order. -/
def earliestLecture (ls : List Lecture) : Option Lecture :=
  ls.foldl (fun acc l =>
    match acc with
    | none => some l
    | some m => if lectureBefore l m then some l else acc) none

/-- The first methodology lecture of the course. -/
def firstMethodologyLecture (course : Course) : Option Lecture :=
  earliestLecture (course.lectures.filter (fun l => l.speaker_type == "methodology"))

/-- Stable insertion by sequence_order (ORDER BY sequence_order ASC). -/
def insertBySeq (c : Chunk) : List Chunk → List Chunk
  | [] => [c]
  | d :: rest =>
    if c.sequence_order < d.sequence_order then c :: d :: rest
    else d :: insertBySeq c rest

/-- Sort chunks by sequence_order, keeping table order on ties. -/
def sortBySeq (cs : List Chunk) : List Chunk :=
  cs.foldl (fun acc c => insertBySeq c acc) []

/-- Chunks of one lecture in sequence order (no speaker_type filter, as in
the CASE 1 and CASE 3 queries). -/
def chunksOfLecture (course : Course) (lecture_id : String) : List Chunk :=
  sortBySeq (course.chunks.filter (fun c => c.lecture_id == lecture_id))

/-- Python truthiness of a nullable text column. -/
def truthyCol (o : Option String) : Option String :=
  match o with
  | some t => if t = "" then none else some t
  | none => none

/-- get_next_methodology_chunks: CASE 1 fresh start, CASE 2 continue inside
the current lecture, CASE 3 jump to the next methodology lecture. -/
def get_next_methodology_chunks (course : Course) (p : ProgressRow)
    (limit : Nat) : List Chunk :=
  match truthyCol p.current_lecture_id with
  | none =>
    match firstMethodologyLecture course with
    | none => []
    | some lec => (chunksOfLecture course lec.lecture_id).take limit
  | some current_lecture_id =>
    let cont := (sortBySeq (course.chunks.filter (fun c =>
      c.speaker_type == "methodology" && c.lecture_id == current_lecture_id &&
        p.current_sequence_order < c.sequence_order))).take limit
    if cont ≠ [] then cont
    else
      match (course.lectures.filter (fun l => l.lecture_id == current_lecture_id)).head? with
      | none => []
      | some curr =>
        let nexts := course.lectures.filter (fun l =>
          l.speaker_type == "methodology" && lectureBefore curr l)
        match earliestLecture nexts with
        | none => []
        | some nl => (chunksOfLecture course nl.lecture_id).take limit

/-- reset_progress: upsert of the cursor columns only; on an existing row the
question set, block id and draft survive untouched. Returns the new row with
the state. -/
def reset_progress (course : Course) (s : UserState) : ProgressRow × UserState :=
  let first_lecture_id := (firstMethodologyLecture course).map (fun l => l.lecture_id)
  match s.progress with
  | some p =>
    let p1 := { p with
      mode := "study", current_module := 1, current_day := 1,
      current_lecture_id := first_lecture_id, current_sequence_order := 0 }
    (p1, { s with progress := some p1 })
  | none =>
    let p1 : ProgressRow :=
      { mode := "study", current_module := 1, current_day := 1,
        current_lecture_id := first_lecture_id, current_sequence_order := 0,
        pending_questions := [], pending_block_id := none, draft_decision := none }
    (p1, { s with progress := some p1 })

/-- update_progress: copy module and day from the lecture row, then move the
cursor. -/
def update_progress (course : Course) (s : UserState) (lecture_id : String)
    (sequence_order : Nat) : UserState :=
  match (course.lectures.filter (fun l => l.lecture_id == lecture_id)).head? with
  | none => s
  | some lec =>
    match s.progress with
    | some p =>
      { s with progress := some { p with
          current_module := lec.module, current_day := lec.day,
          current_lecture_id := some lecture_id,
          current_sequence_order := sequence_order } }
    | none => s

-- ===========================================================================
-- Answer analyzer pipeline (study.py lines 754-861)
-- The language-model call and the XML parsing of its reply are collaborator
-- I/O: `analysis` stands for parse_questions_analysis(response), which is
-- none exactly when no questions_analysis block can be parsed.
-- ===========================================================================

/-- Result dict of process_user_answer (the presentation text is omitted). -/
structure AnswerResult where
  memory_saved : Bool
  memory_id : Option Nat
  decision_summary : Option String
  pending_questions : List Question
  current_question : Option Question
  questions_stats : QuestionsStats
  all_closed : Bool
  can_continue : Bool
deriving DecidableEq

/-- The extra ROI validation loop: iterating over the original answered list,
every id containing "roi" (case-insensitively) is deleted from the running
answered list and appended to still_open whenever the local numeric check
fails on the reply. -/
def roiValidate (roi_ok : Bool) (answered still_open : List String) :
    List String × List String :=
  answered.foldl (fun acc qid =>
    if containsSub "roi" (pyLower qid) && !roi_ok then
      (acc.1.filter (fun x => x ≠ qid), acc.2 ++ [qid])
    else acc) (answered, still_open)

/-- The inline skipped-marking loop of process_user_answer (lines 815-821):
every question whose id is listed gets status "skipped", regardless of its
current status. -/
def mark_questions_skipped (s : UserState) (skipped_ids : List String) : UserState :=
  let questions := (get_pending_questions s).map (skippedUpdate skipped_ids)
  save_pending_questions s questions

/-- The `if analysis:` body of process_user_answer: ROI validation over the
model's answered list, then draft writes and answered-marking, then the
skipped-marking. -/
def apply_questions_analysis (s : UserState) (answer : String)
    (ctx_topic : String) (a : Analysis) : UserState :=
  let va := roiValidate (analyze_roi_answer answer) a.answered a.still_open
  let answered_ids := va.1
  let sA :=
    if answered_ids.isEmpty then s
    else
      let sD := answered_ids.foldl (fun st qid =>
        save_draft_answer st qid (pyTake answer 500) ctx_topic) s
      (mark_questions_answered sD answered_ids (some (pyTake answer 500))).2
  if a.skipped.isEmpty then sA else mark_questions_skipped sA a.skipped

/-- process_user_answer with the draft/commit pattern. `ctx_topic` is
context["topic"] (every caller in the repository passes the key, so the
'Study' fallback of line 812 never fires through them and ctx_topic is used
verbatim). -/
def process_user_answer (s : UserState) (answer : String) (ctx_topic : String)
    (analysis : Option Analysis) : AnswerResult × UserState :=
  let s1 := match analysis with
    | none => s
    | some a => apply_questions_analysis s answer ctx_topic a
  let all_closed := all_questions_closed s1
  let cr :=
    if all_closed && (get_draft_decision s1).isSome then commit_decision s1
    else (none, s1)
  let commit_result := cr.1
  let s2 := cr.2
  ({ memory_saved := commit_result.isSome
     memory_id := commit_result.map (fun r => r.memory_id)
     decision_summary := commit_result.map (fun r => r.summary)
     pending_questions := get_pending_questions s2
     current_question := get_current_question s2
     questions_stats := get_questions_stats s2
     all_closed := all_closed
     can_continue := all_closed }, s2)

-- ===========================================================================
-- Conflict detector (decisions.py lines 153-191)
-- The similarity-search rows returned by the Knowledge Store rpc (bounded by
-- match_count) are the input; similarities are kept as exact rationals.
-- ===========================================================================

/-- A row of the match_company_memory similarity search. -/
structure MemoryMatch where
  id : String
  related_topic : String
  user_decision_normalized : Option String
  user_decision_raw : String
  similarity : Option ℚ
deriving DecidableEq

/-- ConflictCandidate: transient, never persisted. -/
structure ConflictCandidate where
  decision_id : String
  topic : String
  user_decision : String
  similarity : ℚ
deriving DecidableEq

/-- detect_conflicts, given the rows the similarity search returned: keep, in
order, the rows whose similarity exceeds 0.5. -/
def detect_conflicts (rows : List MemoryMatch) : List ConflictCandidate :=
  rows.filterMap (fun d =>
    let sim := d.similarity.getD 0
    if 1/2 < sim then
      some { decision_id := d.id
             topic := d.related_topic
             user_decision :=
               match truthyCol d.user_decision_normalized with
               | some n => n
               | none => d.user_decision_raw
             similarity := sim }
    else none)

-- ===========================================================================
-- Block loader pipeline (study.py study_next, lines 610-702)
-- `parsed` stands for the {id, text} pairs of parse_pending_questions on the
-- model's completion ([] when absent or unparseable); `force` is the
-- FORCE_FALLBACK_QUESTIONS configuration flag.
-- ===========================================================================

/-- Response dict of study_next (the explanation text and source lists,
being collaborator products echoed back, are omitted). -/
structure StudyResponse where
  completed : Bool
  pending_questions : List Question
  current_question : Option Question
  questions_stats : QuestionsStats
  can_continue : Bool
  fallback_used : Bool
  block_id : String
  progress : Option ProgressRow
deriving DecidableEq

/-- study_next after the progress row and the served chunks are known:
clear has already run, producing `s1`; `p` is the row read before the
clear. -/
def study_next_with (course : Course) (parsed : List QuestionSpec)
    (force : Bool) (p : ProgressRow) (s1 : UserState) :
    StudyResponse × UserState :=
  match get_next_methodology_chunks course p 5 with
  | [] =>
    ({ completed := true, pending_questions := [], current_question := none,
       questions_stats := ⟨0, 0, 0, 0⟩, can_continue := false,
       fallback_used := false, block_id := "", progress := some p }, s1)
  | c :: cs =>
    let chunks := c :: cs
    let block_id := compute_block_id chunks
    let parsedQs : List Question :=
      if force then [] else parsed.map (fun q => ⟨q.id, q.text, "open", none⟩)
    let pending := if parsedQs.isEmpty then generate_fallback_questions else parsedQs
    let fallback_used := parsedQs.isEmpty
    let s2 := save_pending_questions_with_block s1 pending block_id
    let last := chunks.getLast?.getD c
    let s3 := update_progress course s2 last.lecture_id last.sequence_order
    ({ completed := false, pending_questions := pending,
       current_question := get_current_question s3,
       questions_stats := get_questions_stats s3, can_continue := false,
       fallback_used := fallback_used, block_id := block_id,
       progress := s3.progress }, s3)

/-- study_next: fetch (or lazily reset) the progress row, unconditionally
clear the previous block's pending questions, then load and serve the next
block. -/
def study_next (course : Course) (parsed : List QuestionSpec) (force : Bool)
    (s : UserState) : StudyResponse × UserState :=
  match s.progress with
  | some p => study_next_with course parsed force p (clear_pending_questions s)
  | none =>
    let r := reset_progress course s
    study_next_with course parsed force r.1 (clear_pending_questions r.2)

-- ===========================================================================
-- Chat layer (chat.py): the /next command (lines 148-152) and the
-- continue-signal gate logic (lines 367-447)
-- ===========================================================================

/-- What the study-mode chat layer answers to an advance request. -/
inductive ChatOutcome where
  | gateBlocked : Question → QuestionsStats → List Question → ChatOutcome
  | blockLoaded : StudyResponse → ChatOutcome
  | courseCompleted : ChatOutcome
deriving DecidableEq

/-- Map a study_next result to the chat outcome. -/
def studyOutcome (pr : StudyResponse × UserState) : ChatOutcome × UserState :=
  if pr.1.completed then (ChatOutcome.courseCompleted, pr.2)
  else (ChatOutcome.blockLoaded pr.1, pr.2)

/-- Is the outcome the gate-blocked response? -/
def isGateBlocked (o : ChatOutcome) : Bool :=
  match o with
  | ChatOutcome.gateBlocked _ _ _ => true
  | _ => false

/-- The continue-signal path of process_chat_message: bypass the gate when
no pending_block_id is stored, or (clearing stale questions) when no current
lecture is set; otherwise any open question blocks advancement, surfacing
the first open question and the closure stats. -/
def continue_flow (course : Course) (parsed : List QuestionSpec) (force : Bool)
    (s : UserState) : ChatOutcome × UserState :=
  match get_pending_block_id s with
  | none => studyOutcome (study_next course parsed force s)
  | some _ =>
    let current_lecture_id := match s.progress with
      | some p => truthyCol p.current_lecture_id
      | none => none
    match current_lecture_id with
    | none => studyOutcome (study_next course parsed force (clear_pending_questions s))
    | some _ =>
      match get_open_questions s with
      | [] => studyOutcome (study_next course parsed force s)
      | q :: _ =>
        (ChatOutcome.gateBlocked q (get_questions_stats s) (get_pending_questions s), s)

/-- The /next command (process_command, "next" branch): study_next invoked
directly, without any gate consultation. -/
def cmd_next (course : Course) (parsed : List QuestionSpec) (force : Bool)
    (s : UserState) : ChatOutcome × UserState :=
  studyOutcome (study_next course parsed force s)

-- ===========================================================================
-- Concrete fixtures used to instantiate the theorems
-- ===========================================================================

/-- A plain progress row sitting inside lecture L1 with nothing pending. -/
def baseRow : ProgressRow :=
  { mode := "study", current_module := 1, current_day := 1,
    current_lecture_id := some "L1", current_sequence_order := 0,
    pending_questions := [], pending_block_id := none, draft_decision := none }

/-- A one-lecture course: L1 is a methodology lecture with a single chunk. -/
def course1 : Course :=
  { lectures := [⟨"L1", 1, 1, 1, "methodology"⟩],
    chunks := [⟨"c1", "L1", 1, "methodology", "txt", "theory"⟩] }

/-- Learner whose draft holds one answer while the block's question is
terminal: ready to commit. -/
def stReady : UserState :=
  { progress := some { baseRow with
      pending_questions := [⟨"roi", "q", "answered", some "a"⟩],
      pending_block_id := some "L1:1-1",
      draft_decision := some ⟨"Topic", [⟨"roi", "42"⟩], ""⟩ },
    memory := [] }

/-- Learner with no draft at all. -/
def stNoDraft : UserState :=
  { progress := some baseRow, memory := [] }

/-- Learner with one open roi question belonging to block L1:1-1. -/
def stOpenRoi : UserState :=
  { progress := some { baseRow with
      pending_questions := [⟨"roi", "Как мерить ROI?", "open", none⟩],
      pending_block_id := some "L1:1-1" },
    memory := [] }

/-- Learner whose single question is already skipped. -/
def stSkipped : UserState :=
  { progress := some { baseRow with
      pending_questions := [⟨"roi", "q", "skipped", none⟩],
      pending_block_id := some "L1:1-1" },
    memory := [] }

/-- Learner with an empty pending set (block already cleared). -/
def stNoPending : UserState :=
  { progress := some baseRow, memory := [] }

/-- Two open questions sharing the id "roi" (the model may emit duplicate
ids; parse_pending_questions does not deduplicate). -/
def stDupIds : UserState :=
  { progress := some { baseRow with
      pending_questions := [⟨"roi", "About metrics", "open", none⟩,
                            ⟨"roi", "About data", "open", none⟩],
      pending_block_id := some "L1:1-1" },
    memory := [] }

/-- Similarity-search rows for the conflict-detector witness. -/
def matchRows : List MemoryMatch :=
  [ ⟨"d1", "t1", some "n1", "r1", some (3/4)⟩,
    ⟨"d2", "t2", none, "r2", some (1/4)⟩,
    ⟨"d3", "t3", some "", "r3", none⟩ ]

-- ===========================================================================
-- Helper lemmas
-- ===========================================================================

theorem pending_save_draft (s : UserState) (d : Option Draft) :
    get_pending_questions (save_draft s d) = get_pending_questions s := by
  cases s with
  | mk progress memory => cases progress <;> rfl

theorem block_id_save_draft (s : UserState) (d : Option Draft) :
    get_pending_block_id (save_draft s d) = get_pending_block_id s := by
  cases s with
  | mk progress memory => cases progress <;> rfl

theorem memory_save_draft (s : UserState) (d : Option Draft) :
    (save_draft s d).memory = s.memory := by
  cases s with
  | mk progress memory => cases progress <;> rfl

theorem draft_save_draft_of_some (s : UserState) (p : ProgressRow)
    (hp : s.progress = some p) (d : Option Draft) :
    get_draft_decision (save_draft s d) = d := by
  cases s with
  | mk progress memory =>
    cases progress with
    | none => cases hp
    | some p0 => rfl

theorem pending_commit_decision (s : UserState) :
    get_pending_questions (commit_decision s).2 = get_pending_questions s := by
  unfold commit_decision
  cases h : get_draft_decision s with
  | none => rfl
  | some d =>
    by_cases ha : d.answers = []
    · simp [ha]
    · cases s with
      | mk progress memory =>
        cases progress <;> simp [ha, save_draft, get_pending_questions]

theorem block_id_commit_decision (s : UserState) :
    get_pending_block_id (commit_decision s).2 = get_pending_block_id s := by
  unfold commit_decision
  cases h : get_draft_decision s with
  | none => rfl
  | some d =>
    by_cases ha : d.answers = []
    · simp [ha]
    · cases s with
      | mk progress memory =>
        cases progress <;> simp [ha, save_draft, get_pending_block_id]

-- ===========================================================================
-- C6
-- ===========================================================================

/-- C6: a commit attempt with no draft, or with an answerless draft, is a
no-op returning null and writing nothing; a successful commit inserts exactly
one CommittedDecision and a repeated commit with no intervening answer is a
null-returning no-op. -/
theorem commit_noop_and_exactly_once (s : UserState) :
    ((get_draft_decision s = none ∨
        (∃ d, get_draft_decision s = some d ∧ d.answers = [])) →
      commit_decision s = (none, s)) ∧
    (∀ (r : CommitResult) (s1 : UserState), commit_decision s = (some r, s1) →
      s1.memory.length = s.memory.length + 1 ∧ commit_decision s1 = (none, s1)) := by
  constructor
  · intro h
    unfold commit_decision
    rcases h with h | ⟨d, hd, ha⟩
    · rw [h]
    · rw [hd]; simp [ha]
  · intro r s1 hc
    unfold commit_decision at hc
    cases h : get_draft_decision s with
    | none => rw [h] at hc; cases hc
    | some d =>
      rw [h] at hc
      by_cases ha : d.answers = []
      · simp [ha] at hc
      · simp only [ha, if_false, if_neg ha] at hc
        have hs1 : s1 = save_draft { s with memory := s.memory ++ [_] } none :=
          congrArg Prod.snd hc.symm
        constructor
        · rw [hs1, memory_save_draft]
          simp
        · have hprog : s.progress.isSome := by
            unfold get_draft_decision at h
            cases hp : s.progress with
            | none => rw [hp] at h; cases h
            | some p => simp
          have hdraft : get_draft_decision s1 = none := by
            rw [hs1]
            cases hp : s.progress with
            | none => unfold get_draft_decision at h; rw [hp] at h; cases h
            | some p =>
              apply draft_save_draft_of_some _ p
              simp [hp]
          unfold commit_decision
          rw [hdraft]

/-- C6 witness: a draftless learner commits to null without writing; a ready
learner commits once, and the repeated commit is a null no-op. -/
theorem commit_noop_and_exactly_once_w :
    commit_decision stNoDraft = (none, stNoDraft) ∧
    ((commit_decision stReady).2.memory.length = stReady.memory.length + 1 ∧
      commit_decision (commit_decision stReady).2 = (none, (commit_decision stReady).2)) :=
  ⟨(commit_noop_and_exactly_once stNoDraft).1 (Or.inl rfl),
   (commit_noop_and_exactly_once stReady).2 ⟨0, "Topic", "[Topic] 42"⟩
     (commit_decision stReady).2 (by decide)⟩

-- ===========================================================================
-- C1
-- ===========================================================================

/-- C1 counterexample: a learner with a one-answer draft and a fully terminal
question set commits successfully, yet the pending-question set and the
block identity survive the commit untouched — commit_decision never touches
them. -/
theorem commit_pending_survives_cex :
    (commit_decision stReady).1.isSome = true ∧
    get_pending_questions (commit_decision stReady).2 =
      [⟨"roi", "q", "answered", some "a"⟩] ∧
    get_pending_block_id (commit_decision stReady).2 = some "L1:1-1" := by
  decide

/-- C1 amended: a successful commit clears the draft and inserts exactly one
CommittedDecision, but leaves the pending-question set and the pending-block
identity exactly as they were; they are cleared only by the next block load. -/
theorem commit_clears_draft_not_questions (s : UserState) (r : CommitResult)
    (s1 : UserState) (h : commit_decision s = (some r, s1)) :
    get_draft_decision s1 = none ∧
    get_pending_questions s1 = get_pending_questions s ∧
    get_pending_block_id s1 = get_pending_block_id s ∧
    s1.memory.length = s.memory.length + 1 := by
  have h2 : s1 = (commit_decision s).2 := by rw [h]
  refine ⟨?_, ?_, ?_, ?_⟩
  · unfold commit_decision at h
    cases hd : get_draft_decision s with
    | none => rw [hd] at h; cases h
    | some d =>
      rw [hd] at h
      by_cases ha : d.answers = []
      · simp [ha] at h
      · simp only [if_neg ha] at h
        have hs1 : s1 = save_draft { s with memory := s.memory ++ [_] } none :=
          congrArg Prod.snd h.symm
        rw [hs1]
        cases hp : s.progress with
        | none => unfold get_draft_decision at hd; rw [hp] at hd; cases hd
        | some p => exact draft_save_draft_of_some _ p (by simp [hp]) none
  · rw [h2, pending_commit_decision]
  · rw [h2, block_id_commit_decision]
  · unfold commit_decision at h
    cases hd : get_draft_decision s with
    | none => rw [hd] at h; cases h
    | some d =>
      rw [hd] at h
      by_cases ha : d.answers = []
      · simp [ha] at h
      · simp only [if_neg ha] at h
        have hs1 : s1 = save_draft { s with memory := s.memory ++ [_] } none :=
          congrArg Prod.snd h.symm
        rw [hs1, memory_save_draft]
        simp

/-- C1 amended witness: the ready learner's commit clears the draft, keeps
the question set and block id, and adds one memory record. -/
theorem commit_clears_draft_not_questions_w :
    get_draft_decision (commit_decision stReady).2 = none ∧
    get_pending_questions (commit_decision stReady).2 = get_pending_questions stReady ∧
    get_pending_block_id (commit_decision stReady).2 = get_pending_block_id stReady ∧
    (commit_decision stReady).2.memory.length = stReady.memory.length + 1 :=
  commit_clears_draft_not_questions stReady ⟨0, "Topic", "[Topic] 42"⟩
    (commit_decision stReady).2 (by decide)

-- ===========================================================================
-- C9
-- ===========================================================================

/-- C9: whenever the Knowledge Store honours its result bound (at most five
rows for match_count 5), detect_conflicts returns at most five candidates,
and every returned candidate's similarity strictly exceeds 0.5; rows at or
below 0.5 are dropped. -/
theorem detect_conflicts_bounded (rows : List MemoryMatch)
    (h : rows.length ≤ 5) :
    (detect_conflicts rows).length ≤ 5 ∧
    ∀ c ∈ detect_conflicts rows, (1 : ℚ)/2 < c.similarity := by
  constructor
  · exact le_trans (List.length_filterMap_le _ _) h
  · intro c hc
    unfold detect_conflicts at hc
    rcases List.mem_filterMap.mp hc with ⟨d, _, hd⟩
    by_cases hs : (1 : ℚ)/2 < d.similarity.getD 0
    · simp only [if_pos hs] at hd
      cases hd
      exact hs
    · simp only [if_neg hs] at hd
      cases hd

/-- C9 witness: three store rows (similarities 0.75, 0.25, absent) yield only
candidates above the threshold. -/
theorem detect_conflicts_bounded_w :
    matchRows.length ≤ 5 ∧
    ((detect_conflicts matchRows).length ≤ 5 ∧
      ∀ c ∈ detect_conflicts matchRows, (1 : ℚ)/2 < c.similarity) :=
  ⟨by decide, detect_conflicts_bounded matchRows (by decide)⟩

-- ===========================================================================
-- C3
-- ===========================================================================

/-- C3: the code contradicts the never-blocked-after-reset guarantee.
reset_progress upserts only the cursor columns, so an existing row keeps its
pending_block_id and open questions; the subsequent continue request then
finds a block id and a current lecture, applies the normal gate, and blocks
on the pre-reset open question. -/
theorem reset_then_continue_gate_blocked :
    get_open_questions stOpenRoi ≠ [] ∧
    get_pending_block_id (reset_progress course1 stOpenRoi).2 = some "L1:1-1" ∧
    (continue_flow course1 [] false (reset_progress course1 stOpenRoi).2).1 =
      ChatOutcome.gateBlocked ⟨"roi", "Как мерить ROI?", "open", none⟩
        ⟨1, 0, 0, 1⟩ [⟨"roi", "Как мерить ROI?", "open", none⟩] := by
  decide

-- ===========================================================================
-- C5
-- ===========================================================================

/-- C5 counterexample: with an unparseable model response but an already
empty pending set, process_user_answer reports all_closed as true, not
false. -/
theorem parse_failure_all_closed_cex :
    (process_user_answer stNoPending "hi" "" none).1.all_closed = true := by
  decide

/-- C5 amended: when no questions-analysis can be parsed, no question changes
status, and all_closed is reported as whether the unchanged pending set was
already fully terminal; in particular, whenever at least one question is
still open the state is left entirely untouched, all_closed is false and no
commit fires. (If the set was already fully closed — or empty — all_closed
is true and a leftover draft would still be committed.) -/
theorem parse_failure_fails_safe (s : UserState) (answer ctx_topic : String) :
    get_pending_questions (process_user_answer s answer ctx_topic none).2 =
      get_pending_questions s ∧
    (process_user_answer s answer ctx_topic none).1.all_closed =
      all_questions_closed s ∧
    (all_questions_closed s = false →
      (process_user_answer s answer ctx_topic none).2 = s ∧
      (process_user_answer s answer ctx_topic none).1.all_closed = false ∧
      (process_user_answer s answer ctx_topic none).1.memory_saved = false) := by
  refine ⟨?_, ?_, ?_⟩
  · show get_pending_questions
      (if all_questions_closed s && (get_draft_decision s).isSome
        then commit_decision s else (none, s)).2 = get_pending_questions s
    by_cases hg : all_questions_closed s && (get_draft_decision s).isSome
    · rw [if_pos hg]; exact pending_commit_decision s
    · rw [if_neg hg]
  · rfl
  · intro h
    have hg : (all_questions_closed s && (get_draft_decision s).isSome) = false := by
      rw [h]; rfl
    refine ⟨?_, ?_, ?_⟩
    · show (if all_questions_closed s && (get_draft_decision s).isSome
          then commit_decision s else (none, s)).2 = s
      rw [hg]; rfl
    · show all_questions_closed s = false
      exact h
    · show (if all_questions_closed s && (get_draft_decision s).isSome
          then commit_decision s else (none, s)).1.isSome = false
      rw [hg]; rfl

/-- C5 amended witness: an unparseable response against one open question
changes nothing, reports all_closed false and commits nothing. -/
theorem parse_failure_fails_safe_w :
    get_pending_questions (process_user_answer stOpenRoi "hi" "" none).2 =
      get_pending_questions stOpenRoi ∧
    (process_user_answer stOpenRoi "hi" "" none).2 = stOpenRoi ∧
    (process_user_answer stOpenRoi "hi" "" none).1.all_closed = false ∧
    (process_user_answer stOpenRoi "hi" "" none).1.memory_saved = false := by
  have h := parse_failure_fails_safe stOpenRoi "hi" ""
  have h3 := h.2.2 (by decide)
  exact ⟨h.1, h3.1, h3.2.1, h3.2.2⟩

-- ===========================================================================
-- Helper lemmas for the block loader
-- ===========================================================================

theorem pending_swpb (s : UserState) (p : ProgressRow) (hp : s.progress = some p)
    (qs : List Question) (bid : String) :
    get_pending_questions (save_pending_questions_with_block s qs bid) = qs := by
  cases s with
  | mk progress memory =>
    cases progress with
    | none => cases hp
    | some p0 => rfl

theorem pending_update_progress (course : Course) (s : UserState)
    (lid : String) (seq : Nat) :
    get_pending_questions (update_progress course s lid seq) =
      get_pending_questions s := by
  unfold update_progress
  cases (course.lectures.filter (fun l => l.lecture_id == lid)).head? with
  | none => rfl
  | some lec =>
    cases s with
    | mk progress memory => cases progress <;> rfl

theorem progress_clear_some (s : UserState) (p : ProgressRow)
    (hp : s.progress = some p) :
    (clear_pending_questions s).progress =
      some { p with pending_questions := [], pending_block_id := none } := by
  cases s with
  | mk progress memory =>
    cases progress with
    | none => cases hp
    | some p0 =>
      cases hp
      rfl

theorem progress_swpb_some (s : UserState) (p : ProgressRow)
    (hp : s.progress = some p) (qs : List Question) (bid : String) :
    (save_pending_questions_with_block s qs bid).progress =
      some { p with pending_questions := qs, pending_block_id := some bid } := by
  cases s with
  | mk progress memory =>
    cases progress with
    | none => cases hp
    | some p0 =>
      cases hp
      rfl

-- ===========================================================================
-- C8
-- ===========================================================================

/-- C8: every block load that serves at least one unit persists a non-empty
pending set; when the model supplied no parseable {id, text} list the fixed
four-question fallback (each open) is adopted and the response flags it. -/
theorem fallback_guarantees_nonempty_gate (course : Course)
    (parsed : List QuestionSpec) (force : Bool) (s : UserState)
    (p : ProgressRow) (hp : s.progress = some p)
    (hc : get_next_methodology_chunks course p 5 ≠ []) :
    get_pending_questions (study_next course parsed force s).2 ≠ [] ∧
    (study_next course parsed force s).1.pending_questions =
      get_pending_questions (study_next course parsed force s).2 ∧
    (parsed = [] →
      get_pending_questions (study_next course parsed force s).2 =
        generate_fallback_questions ∧
      (study_next course parsed force s).1.fallback_used = true) ∧
    generate_fallback_questions.length = 4 ∧
    (∀ q ∈ generate_fallback_questions, q.status = "open") := by
  have hsn : study_next course parsed force s =
      study_next_with course parsed force p (clear_pending_questions s) := by
    unfold study_next
    rw [hp]
  have hp1 : (clear_pending_questions s).progress =
      some { p with pending_questions := [], pending_block_id := none } :=
    progress_clear_some s p hp
  rw [hsn]
  unfold study_next_with
  cases hch : get_next_methodology_chunks course p 5 with
  | nil => exact absurd hch hc
  | cons c cs =>
    set parsedQs : List Question :=
      (if force then [] else parsed.map (fun q => ⟨q.id, q.text, "open", none⟩)) with hpq
    have hpend : ∀ (qs : List Question) (bid : String) (lid : String) (seq : Nat),
        get_pending_questions (update_progress course
          (save_pending_questions_with_block (clear_pending_questions s) qs bid)
          lid seq) = qs := by
      intro qs bid lid seq
      rw [pending_update_progress, pending_swpb (clear_pending_questions s) _ hp1]
    refine ⟨?_, ?_, ?_, by decide, by decide⟩
    · by_cases he : parsedQs.isEmpty
      · simp only [he, if_true, if_pos, hpend]
        decide
      · simp only [he, if_false, if_neg, Bool.false_eq_true, hpend]
        intro hempty
        rw [hempty] at he
        exact he rfl
    · by_cases he : parsedQs.isEmpty <;> simp only [he, hpend]
    · intro hparsed
      have he : parsedQs.isEmpty = true := by
        rw [hpq, hparsed]
        cases force <;> rfl
      simp only [he, if_true, if_pos, hpend]
      exact ⟨trivial, trivial⟩

/-- C8 witness: with lecture L1's chunk pending and an unparseable question
payload, study_next persists the four fallback questions and flags it. -/
theorem fallback_guarantees_nonempty_gate_w :
    get_next_methodology_chunks course1 baseRow 5 ≠ [] ∧
    get_pending_questions (study_next course1 [] false stNoDraft).2 ≠ [] ∧
    get_pending_questions (study_next course1 [] false stNoDraft).2 =
      generate_fallback_questions ∧
    (study_next course1 [] false stNoDraft).1.fallback_used = true := by
  have h := fallback_guarantees_nonempty_gate course1 [] false stNoDraft baseRow
    (by decide) (by decide)
  have h3 := h.2.2.1 rfl
  exact ⟨by decide, h.1, h3.1, h3.2⟩

-- ===========================================================================
-- C10
-- ===========================================================================

/-- C10: the /next command runs study_next directly, which clears the stored
pending questions and block identity before anything else; no gate is ever
consulted on this path, and its entire outcome — response and resulting
state — is independent of whatever pending questions and block identity the
learner had, open or not: they are silently erased, never blocking. -/
theorem next_command_never_blocks_and_erases (course : Course)
    (parsed : List QuestionSpec) (force : Bool) (mode : String)
    (m d seq : Nat) (clid : Option String) (P P' : List Question)
    (B B' : Option String) (dr : Option Draft) (mem : List MemoryRecord) :
    cmd_next course parsed force ⟨some ⟨mode, m, d, clid, seq, P, B, dr⟩, mem⟩ =
      cmd_next course parsed force ⟨some ⟨mode, m, d, clid, seq, P', B', dr⟩, mem⟩ ∧
    isGateBlocked (cmd_next course parsed force
      ⟨some ⟨mode, m, d, clid, seq, P, B, dr⟩, mem⟩).1 = false := by
  have hrow : get_next_methodology_chunks course ⟨mode, m, d, clid, seq, P, B, dr⟩ 5 =
      get_next_methodology_chunks course ⟨mode, m, d, clid, seq, P', B', dr⟩ 5 := rfl
  constructor
  · show studyOutcome (study_next_with course parsed force
        ⟨mode, m, d, clid, seq, P, B, dr⟩
        ⟨some ⟨mode, m, d, clid, seq, [], none, dr⟩, mem⟩) =
      studyOutcome (study_next_with course parsed force
        ⟨mode, m, d, clid, seq, P', B', dr⟩
        ⟨some ⟨mode, m, d, clid, seq, [], none, dr⟩, mem⟩)
    unfold study_next_with
    rw [hrow]
    cases hch : get_next_methodology_chunks course
        ⟨mode, m, d, clid, seq, P', B', dr⟩ 5 with
    | nil => rfl
    | cons c cs => rfl
  · show isGateBlocked (studyOutcome (study_next_with course parsed force
        ⟨mode, m, d, clid, seq, P, B, dr⟩
        ⟨some ⟨mode, m, d, clid, seq, [], none, dr⟩, mem⟩)).1 = false
    unfold study_next_with
    cases hch : get_next_methodology_chunks course
        ⟨mode, m, d, clid, seq, P, B, dr⟩ 5 with
    | nil => rfl
    | cons c cs => rfl

-- ===========================================================================
-- Pointwise helper lemmas for the question-set operations
-- ===========================================================================

theorem contains_mem {l : List String} {a : String} (h : l.contains a = true) :
    a ∈ l :=
  List.elem_iff.mp h

theorem mem_contains {l : List String} {a : String} (h : a ∈ l) :
    l.contains a = true :=
  List.elem_iff.mpr h

theorem pending_mark_answered (s : UserState) (ids : List String)
    (ua : Option String) :
    get_pending_questions (mark_questions_answered s ids ua).2 =
      (get_pending_questions s).map (answeredUpdate ids ua) := by
  cases s with
  | mk progress memory => cases progress <;> rfl

theorem pending_mark_skipped (s : UserState) (sids : List String) :
    get_pending_questions (mark_questions_skipped s sids) =
      (get_pending_questions s).map (skippedUpdate sids) := by
  cases s with
  | mk progress memory => cases progress <;> rfl

theorem pending_skip_question (s : UserState) (query : String) :
    get_pending_questions (skip_question s query).2 =
      (if (skip_matched_ids s query).isEmpty then get_pending_questions s
       else (get_pending_questions s).map (skippedUpdate (skip_matched_ids s query))) := by
  by_cases he : (skip_matched_ids s query).isEmpty
  · rw [if_pos he]
    unfold skip_question
    unfold skip_matched_ids at he
    rw [if_pos he]
  · rw [if_neg he]
    unfold skip_question
    unfold skip_matched_ids at he ⊢
    rw [if_neg he]
    cases s with
    | mk progress memory => cases progress <;> rfl

theorem pending_save_draft_answer (s : UserState) (qid ans topic : String) :
    get_pending_questions (save_draft_answer s qid ans topic) =
      get_pending_questions s := by
  cases s with
  | mk progress memory => cases progress <;> rfl

theorem pending_fold_save_draft (ans topic : String) :
    ∀ (l : List String) (s : UserState),
      get_pending_questions
        (l.foldl (fun st qid => save_draft_answer st qid ans topic) s) =
      get_pending_questions s := by
  intro l
  induction l with
  | nil => intro s; rfl
  | cons x t ih =>
    intro s
    rw [List.foldl_cons, ih, pending_save_draft_answer]

-- ===========================================================================
-- roiValidate lemmas
-- ===========================================================================

theorem roiFold_subset (ro : Bool) (x : String) :
    ∀ (l : List String) (acc : List String × List String),
      x ∈ (l.foldl (fun acc qid =>
        if containsSub "roi" (pyLower qid) && !ro then
          (acc.1.filter (fun y => y ≠ qid), acc.2 ++ [qid])
        else acc) acc).1 → x ∈ acc.1 := by
  intro l
  induction l with
  | nil => intro acc h; exact h
  | cons qid t ih =>
    intro acc h
    rw [List.foldl_cons] at h
    have h1 := ih _ h
    by_cases hc : containsSub "roi" (pyLower qid) && !ro
    · rw [if_pos hc] at h1
      exact (List.mem_filter.mp h1).1
    · rw [if_neg hc] at h1
      exact h1

theorem roiFold_removes (ro : Bool) (x : String)
    (hx : (containsSub "roi" (pyLower x) && !ro) = true) :
    ∀ (l : List String) (acc : List String × List String), x ∈ l →
      x ∉ (l.foldl (fun acc qid =>
        if containsSub "roi" (pyLower qid) && !ro then
          (acc.1.filter (fun y => y ≠ qid), acc.2 ++ [qid])
        else acc) acc).1 := by
  intro l
  induction l with
  | nil => intro acc h; cases h
  | cons qid t ih =>
    intro acc hmem
    rw [List.foldl_cons]
    rcases List.mem_cons.mp hmem with heq | ht
    · subst heq
      intro hbad
      have h1 := roiFold_subset ro x t _ hbad
      rw [if_pos hx] at h1
      have h2 := (List.mem_filter.mp h1).2
      simp at h2
    · exact ih _ ht

theorem roiValidate_removes (x : String) (answered still_open : List String)
    (hro : containsSub "roi" (pyLower x) = true) (hx : x ∈ answered) :
    x ∉ (roiValidate false answered still_open).1 := by
  unfold roiValidate
  exact roiFold_removes false x (by rw [hro]; rfl) answered _ hx

theorem roiValidate_fst_subset (ro : Bool) (x : String)
    (answered still_open : List String)
    (h : x ∈ (roiValidate ro answered still_open).1) : x ∈ answered :=
  roiFold_subset ro x answered _ h

theorem roiValidate_of_true (answered still_open : List String) :
    roiValidate true answered still_open = (answered, still_open) := by
  unfold roiValidate
  have haux : ∀ (l : List String) (acc : List String × List String),
      l.foldl (fun acc qid =>
        if containsSub "roi" (pyLower qid) && !true then
          (acc.1.filter (fun y => y ≠ qid), acc.2 ++ [qid])
        else acc) acc = acc := by
    intro l
    induction l with
    | nil => intro acc; rfl
    | cons qid t ih =>
      intro acc
      rw [List.foldl_cons, if_neg (by simp)]
      exact ih acc
  exact haux answered _

-- ===========================================================================
-- Pointwise behaviour of the analysis stage
-- ===========================================================================

theorem pending_apply_analysis (s : UserState) (answer ctx_topic : String)
    (a : Analysis) (i : Nat) (q : Question)
    (hq : (get_pending_questions s)[i]? = some q) :
    (get_pending_questions (apply_questions_analysis s answer ctx_topic a))[i]? =
      some (skippedUpdate a.skipped
        (answeredUpdate
          (roiValidate (analyze_roi_answer answer) a.answered a.still_open).1
          (some (pyTake answer 500)) q)) := by
  show (get_pending_questions
      (if a.skipped.isEmpty
        then (if (roiValidate (analyze_roi_answer answer) a.answered a.still_open).1.isEmpty
          then s
          else (mark_questions_answered
              ((roiValidate (analyze_roi_answer answer) a.answered a.still_open).1.foldl
                (fun st qid => save_draft_answer st qid (pyTake answer 500) ctx_topic) s)
              (roiValidate (analyze_roi_answer answer) a.answered a.still_open).1
              (some (pyTake answer 500))).2)
        else mark_questions_skipped
          (if (roiValidate (analyze_roi_answer answer) a.answered a.still_open).1.isEmpty
            then s
            else (mark_questions_answered
                ((roiValidate (analyze_roi_answer answer) a.answered a.still_open).1.foldl
                  (fun st qid => save_draft_answer st qid (pyTake answer 500) ctx_topic) s)
                (roiValidate (analyze_roi_answer answer) a.answered a.still_open).1
                (some (pyTake answer 500))).2)
          a.skipped))[i]? =
      some (skippedUpdate a.skipped
        (answeredUpdate
          (roiValidate (analyze_roi_answer answer) a.answered a.still_open).1
          (some (pyTake answer 500)) q))
  set va := roiValidate (analyze_roi_answer answer) a.answered a.still_open with hva
  have hmid : ∀ hx : (if va.1.isEmpty
        then s
        else (mark_questions_answered
            (va.1.foldl (fun st qid => save_draft_answer st qid (pyTake answer 500) ctx_topic) s)
            va.1 (some (pyTake answer 500))).2) = (if va.1.isEmpty
        then s
        else (mark_questions_answered
            (va.1.foldl (fun st qid => save_draft_answer st qid (pyTake answer 500) ctx_topic) s)
            va.1 (some (pyTake answer 500))).2),
      (get_pending_questions (if va.1.isEmpty
        then s
        else (mark_questions_answered
            (va.1.foldl (fun st qid => save_draft_answer st qid (pyTake answer 500) ctx_topic) s)
            va.1 (some (pyTake answer 500))).2))[i]? =
      some (answeredUpdate va.1 (some (pyTake answer 500)) q) := by
    intro hx
    by_cases hA : va.1.isEmpty
    · rw [if_pos hA]
      have hA0 : va.1 = [] := List.isEmpty_iff.mp hA
      rw [hq, hA0]
      simp [answeredUpdate]
    · rw [if_neg hA, pending_mark_answered, List.getElem?_map,
        pending_fold_save_draft (pyTake answer 500) ctx_topic va.1 s, hq]
      rfl
  by_cases hS : a.skipped.isEmpty
  · rw [if_pos hS]
    have hS0 : a.skipped = [] := List.isEmpty_iff.mp hS
    rw [hmid rfl, hS0]
    simp [skippedUpdate]
  · rw [if_neg hS, pending_mark_skipped, List.getElem?_map, hmid rfl]
    rfl

theorem pending_process_some (s : UserState) (answer ctx_topic : String)
    (a : Analysis) :
    get_pending_questions (process_user_answer s answer ctx_topic (some a)).2 =
      get_pending_questions (apply_questions_analysis s answer ctx_topic a) := by
  show get_pending_questions
      (if all_questions_closed (apply_questions_analysis s answer ctx_topic a) &&
          (get_draft_decision (apply_questions_analysis s answer ctx_topic a)).isSome
        then commit_decision (apply_questions_analysis s answer ctx_topic a)
        else (none, apply_questions_analysis s answer ctx_topic a)).2 =
      get_pending_questions (apply_questions_analysis s answer ctx_topic a)
  by_cases hg : all_questions_closed (apply_questions_analysis s answer ctx_topic a) &&
      (get_draft_decision (apply_questions_analysis s answer ctx_topic a)).isSome
  · rw [if_pos hg]
    exact pending_commit_decision _
  · rw [if_neg hg]

-- ===========================================================================
-- C4
-- ===========================================================================

/-- C4: an open ROI-tagged question (id containing "roi" case-insensitively)
is finalized as answered by process_user_answer only when analyze_roi_answer
confirms numeric/formulaic evidence in the reply — a model classification of
answered without that evidence leaves it unanswered — while with evidence and
an answered classification (not overridden by a skip) it does close;
the reply "we save roughly a couple of hours" carries no evidence and
"ROI = (50000 - 20000)/20000 = 150%" does. -/
theorem roi_numeric_guard (s : UserState) (answer ctx_topic : String)
    (a : Analysis) (i : Nat) (q : Question)
    (hq : (get_pending_questions s)[i]? = some q)
    (hopen : q.status = "open")
    (hroi : containsSub "roi" (pyLower q.id) = true) :
    (analyze_roi_answer answer = false →
      ((get_pending_questions
          (process_user_answer s answer ctx_topic (some a)).2)[i]?).map
        Question.status ≠ some "answered") ∧
    (analyze_roi_answer answer = true → a.answered.contains q.id = true →
      a.skipped.contains q.id = false →
      ((get_pending_questions
          (process_user_answer s answer ctx_topic (some a)).2)[i]?).map
        Question.status = some "answered") ∧
    analyze_roi_answer "we save roughly a couple of hours" = false ∧
    analyze_roi_answer "ROI = (50000 - 20000)/20000 = 150%" = true := by
  have hpost : (get_pending_questions
      (process_user_answer s answer ctx_topic (some a)).2)[i]? =
      some (skippedUpdate a.skipped
        (answeredUpdate
          (roiValidate (analyze_roi_answer answer) a.answered a.still_open).1
          (some (pyTake answer 500)) q)) := by
    rw [pending_process_some]
    exact pending_apply_analysis s answer ctx_topic a i q hq
  refine ⟨?_, ?_, by decide, by decide⟩
  · intro hro
    rw [hro] at hpost
    have hnc : (roiValidate false a.answered a.still_open).1.contains q.id = false := by
      cases hcb : (roiValidate false a.answered a.still_open).1.contains q.id
      · rfl
      · have hmem := contains_mem hcb
        have hin := roiValidate_fst_subset false q.id a.answered a.still_open hmem
        exact absurd hmem (roiValidate_removes q.id a.answered a.still_open hroi hin)
    rw [hpost]
    have hnm : q.id ∉ (roiValidate false a.answered a.still_open).1 := by
      intro hm
      rw [mem_contains hm] at hnc
      cases hnc
    cases hsb : a.skipped.contains q.id
    · have hsm : q.id ∉ a.skipped := by
        intro hm
        rw [mem_contains hm] at hsb
        cases hsb
      simp [answeredUpdate, skippedUpdate, hnm, hsm, hopen]
    · have hsm : q.id ∈ a.skipped := contains_mem hsb
      simp [answeredUpdate, skippedUpdate, hnm, hsm]
  · intro hro hco hsk
    rw [hro, roiValidate_of_true] at hpost
    rw [hpost]
    have hcm : q.id ∈ a.answered := contains_mem hco
    have hskm : q.id ∉ a.skipped := by
      intro hm
      rw [mem_contains hm] at hsk
      cases hsk
    simp [answeredUpdate, skippedUpdate, hcm, hskm]

/-- C4 witness: a single open "roi" question plus a model analysis closing it
stays open on the vague reply and closes on the explicit formula. -/
theorem roi_numeric_guard_w :
    ((get_pending_questions (process_user_answer stOpenRoi
        "we save roughly a couple of hours" "T" (some ⟨["roi"], [], []⟩)).2)[0]?).map
      Question.status ≠ some "answered" ∧
    ((get_pending_questions (process_user_answer stOpenRoi
        "ROI = (50000 - 20000)/20000 = 150%" "T" (some ⟨["roi"], [], []⟩)).2)[0]?).map
      Question.status = some "answered" :=
  ⟨(roi_numeric_guard stOpenRoi "we save roughly a couple of hours" "T"
      ⟨["roi"], [], []⟩ 0 ⟨"roi", "Как мерить ROI?", "open", none⟩
      (by decide) rfl (by decide)).1 (by decide),
   (roi_numeric_guard stOpenRoi "ROI = (50000 - 20000)/20000 = 150%" "T"
      ⟨["roi"], [], []⟩ 0 ⟨"roi", "Как мерить ROI?", "open", none⟩
      (by decide) rfl (by decide)).2.1 (by decide) (by decide) (by decide)⟩

-- ===========================================================================
-- C2
-- ===========================================================================

/-- C2 counterexample: mark_questions_answered applied to an
already-skipped question flips it to answered and overwrites its recorded
answer — the transition is not ignored. -/
theorem mark_answered_overwrites_skipped_cex :
    get_pending_questions (mark_questions_answered stSkipped ["roi"] (some "x")).2 =
      [⟨"roi", "q", "answered", some "x"⟩] := by
  decide

/-- C2 amended: questions never return to open — every operation maps a
closed status to a closed status — but closed statuses are not frozen:
mark_questions_answered sets any listed question to answered (even a skipped
one, overwriting its answer), the skipped-marking of process_user_answer
sets any listed question to skipped (even an answered one), and only
skip_question leaves a closed question untouched, provided no open question
shares its id. -/
theorem status_transitions_characterization (s : UserState)
    (ids sids : List String) (ua : Option String) (query : String)
    (i : Nat) (q : Question)
    (hq : (get_pending_questions s)[i]? = some q) :
    (ids.contains q.id = true →
      ((get_pending_questions (mark_questions_answered s ids ua).2)[i]?).map
        Question.status = some "answered") ∧
    (ids.contains q.id = false →
      (get_pending_questions (mark_questions_answered s ids ua).2)[i]? = some q) ∧
    (sids.contains q.id = true →
      ((get_pending_questions (mark_questions_skipped s sids))[i]?).map
        Question.status = some "skipped") ∧
    (sids.contains q.id = false →
      (get_pending_questions (mark_questions_skipped s sids))[i]? = some q) ∧
    (q.status ≠ "open" →
      (∀ q2, q2 ∈ get_pending_questions s → q2.status = "open" → q2.id ≠ q.id) →
      (get_pending_questions (skip_question s query).2)[i]? = some q) ∧
    (q.status ≠ "open" →
      ((get_pending_questions (mark_questions_answered s ids ua).2)[i]?).map
        Question.status ≠ some "open" ∧
      ((get_pending_questions (mark_questions_skipped s sids))[i]?).map
        Question.status ≠ some "open" ∧
      ((get_pending_questions (skip_question s query).2)[i]?).map
        Question.status ≠ some "open") := by
  refine ⟨?_, ?_, ?_, ?_, ?_, ?_⟩
  · intro h
    rw [pending_mark_answered, List.getElem?_map, hq]
    simp [answeredUpdate, contains_mem h]
  · intro h
    have hm : q.id ∉ ids := fun hm => by rw [mem_contains hm] at h; cases h
    rw [pending_mark_answered, List.getElem?_map, hq]
    simp [answeredUpdate, hm]
  · intro h
    rw [pending_mark_skipped, List.getElem?_map, hq]
    simp [skippedUpdate, contains_mem h]
  · intro h
    have hm : q.id ∉ sids := fun hm => by rw [mem_contains hm] at h; cases h
    rw [pending_mark_skipped, List.getElem?_map, hq]
    simp [skippedUpdate, hm]
  · intro hst huni
    rw [pending_skip_question]
    by_cases he : (skip_matched_ids s query).isEmpty
    · rw [if_pos he]
      exact hq
    · rw [if_neg he, List.getElem?_map, hq]
      have hnm : q.id ∉ skip_matched_ids s query := by
        intro hm
        unfold skip_matched_ids at hm
        rcases List.mem_map.mp hm with ⟨q2, hq2f, hq2id⟩
        have hq2 := List.mem_filter.mp hq2f
        have hmatch := hq2.2
        unfold skipMatches at hmatch
        rw [Bool.and_eq_true] at hmatch
        have hopen2 : q2.status = "open" := eq_of_beq hmatch.1
        exact huni q2 hq2.1 hopen2 hq2id
      simp [skippedUpdate, hnm]
  · intro hst
    refine ⟨?_, ?_, ?_⟩
    · rw [pending_mark_answered, List.getElem?_map, hq]
      cases hcb : ids.contains q.id
      · have hm : q.id ∉ ids := fun hm => by rw [mem_contains hm] at hcb; cases hcb
        simp [answeredUpdate, hm, hst]
      · simp [answeredUpdate, contains_mem hcb]
    · rw [pending_mark_skipped, List.getElem?_map, hq]
      cases hcb : sids.contains q.id
      · have hm : q.id ∉ sids := fun hm => by rw [mem_contains hm] at hcb; cases hcb
        simp [skippedUpdate, hm, hst]
      · simp [skippedUpdate, contains_mem hcb]
    · rw [pending_skip_question]
      by_cases he : (skip_matched_ids s query).isEmpty
      · rw [if_pos he, hq]
        simp [hst]
      · rw [if_neg he, List.getElem?_map, hq]
        cases hcb : (skip_matched_ids s query).contains q.id
        · have hm : q.id ∉ skip_matched_ids s query :=
            fun hm => by rw [mem_contains hm] at hcb; cases hcb
          simp [skippedUpdate, hm, hst]
        · simp [skippedUpdate, contains_mem hcb]

/-- C2 amended witness: the skipped "roi" question is flipped to answered by
mark_questions_answered. -/
theorem status_transitions_characterization_w :
    ((get_pending_questions
        (mark_questions_answered stSkipped ["roi"] (some "x")).2)[0]?).map
      Question.status = some "answered" :=
  (status_transitions_characterization stSkipped ["roi"] [] (some "x") "zzz" 0
    ⟨"roi", "q", "skipped", none⟩ (by decide)).1 (by decide)

-- ===========================================================================
-- C7
-- ===========================================================================

/-- C7 counterexample: with two open questions sharing the id "roi", the
query "metrics" matches only the first question's text, yet skip_question
also transitions the second, non-matching question — the skipped set is
keyed by id, not by matched question. -/
theorem skip_question_duplicate_ids_cex :
    get_pending_questions (skip_question stDupIds "metrics").2 =
      [⟨"roi", "About metrics", "skipped", none⟩,
       ⟨"roi", "About data", "skipped", none⟩] ∧
    skipMatches (pyStrip (pyLower "metrics")) ⟨"roi", "About data", "open", none⟩ =
      false := by
  decide

/-- C7 amended: skip_question transitions to skipped exactly the questions
whose id equals the id of some currently-open matching question (id equality
or case-insensitive substring of the text) — with pairwise-distinct ids that
is exactly the open matching questions; if nothing matches it changes
nothing and returns an empty skipped list; and get_current_question only
ever surfaces an open question, so a skipped question is never surfaced. -/
theorem skip_question_by_matched_ids (s : UserState) (query : String)
    (i : Nat) (q : Question)
    (hq : (get_pending_questions s)[i]? = some q) :
    ((skip_matched_ids s query).contains q.id = true →
      ((get_pending_questions (skip_question s query).2)[i]?).map
        Question.status = some "skipped") ∧
    ((skip_matched_ids s query).contains q.id = false →
      (get_pending_questions (skip_question s query).2)[i]? = some q) ∧
    (skip_matched_ids s query = [] →
      skip_question s query = ((get_open_questions s, []), s)) ∧
    (∀ (t : UserState) (q2 : Question),
      get_current_question t = some q2 → q2.status = "open") := by
  refine ⟨?_, ?_, ?_, ?_⟩
  · intro h
    have hne : (skip_matched_ids s query).isEmpty = false := by
      cases hl : skip_matched_ids s query with
      | nil => rw [hl] at h; cases h
      | cons a t => rfl
    rw [pending_skip_question, if_neg (by simp [hne]), List.getElem?_map, hq]
    simp [skippedUpdate, contains_mem h]
  · intro h
    rw [pending_skip_question]
    by_cases he : (skip_matched_ids s query).isEmpty
    · rw [if_pos he]
      exact hq
    · have hm : q.id ∉ skip_matched_ids s query :=
        fun hm => by rw [mem_contains hm] at h; cases h
      rw [if_neg he, List.getElem?_map, hq]
      simp [skippedUpdate, hm]
  · intro hmi
    unfold skip_matched_ids at hmi
    have hmat : (get_pending_questions s).filter
        (skipMatches (pyStrip (pyLower query))) = [] :=
      List.map_eq_nil_iff.mp hmi
    simp only [skip_question]
    rw [hmat]
    rfl
  · intro t q2 hcq
    unfold get_current_question at hcq
    have hmem : q2 ∈ get_open_questions t := by
      cases hl : get_open_questions t with
      | nil => rw [hl] at hcq; cases hcq
      | cons a t' =>
        rw [hl] at hcq
        cases hcq
        exact List.mem_cons_self _ _
    unfold get_open_questions at hmem
    exact eq_of_beq (List.mem_filter.mp hmem).2

/-- C7 amended witness: skipping by the question's own id transitions it and
a non-matching query is a no-op. -/
theorem skip_question_by_matched_ids_w :
    ((get_pending_questions (skip_question stOpenRoi "roi").2)[0]?).map
      Question.status = some "skipped" ∧
    skip_question stOpenRoi "nothing-matches" =
      ((get_open_questions stOpenRoi, []), stOpenRoi) :=
  ⟨(skip_question_by_matched_ids stOpenRoi "roi" 0
      ⟨"roi", "Как мерить ROI?", "open", none⟩ (by decide)).1 (by decide),
   (skip_question_by_matched_ids stOpenRoi "nothing-matches" 0
      ⟨"roi", "Как мерить ROI?", "open", none⟩ (by decide)).2.2.1 (by decide)⟩

end BizAgent
